import Mathlib

/-!
Shallow embedding of the `microdrop_ext_libs` GStreamer helpers:

* `ext_libs/pygst_utils/video_source.py` — device discovery and capability
  normalization (`get_video_source_names`, `get_allowed_capabilities`,
  `extract_dimensions`, `extract_format`, `extract_fps`,
  `expand_allowed_capabilities`, `get_source_capabilities`);
* `build/lib/pygst_utils/video_pipeline/__init__.py` — pipeline graph
  assembly (`get_pipeline`);
* `build/lib/pygst_utils/elements/cairo_draw.py` — the in-place Cairo
  overlay transform (`CairoDrawBase.do_transform_ip`,
  `CairoDrawBase.draw_on`, `CairoDrawQueue.render_draw_queue`).

GStreamer value types that flow through the Python code (`Gst.Fraction`,
`Gst.FractionRange`, `Gst.IntRange`, `Gst.Fourcc`) are embedded as plain
inductive data.  pandas data frames are embedded as lists of row records,
with the column bookkeeping of the frame operations modelled separately as
explicit lists of column names, mirroring the `drop`/`insert`/assignment
calls one by one.
-/

namespace PygstUtils

/-- `Gst.Fraction`: an exact numerator/denominator frame-rate pair.
GStreamer guarantees a positive denominator and, for a `Gst.FractionRange`,
that the low endpoint is strictly below the high endpoint (as rationals). -/
structure Fraction where
  num : Int
  denom : Int
deriving DecidableEq, Repr

/-- The `framerate` field of one allowed-capabilities structure: either a
single `Gst.Fraction`, a `Gst.FractionRange`, or a Python list of
fractions (the three shapes `extract_fps` distinguishes). -/
inductive FramerateVal where
  | frac (f : Fraction)
  | fracRange (low high : Fraction)
  | fracList (fs : List Fraction)
deriving DecidableEq, Repr

/-- A `width`/`height` field: either a plain integer or a `Gst.IntRange`. -/
inductive DimVal where
  | scalar (v : Int)
  | intRange (low high : Int)
deriving DecidableEq, Repr

/-- One row of the data frame returned by `get_allowed_capabilities`: the
key/value entries of one capabilities structure (`format`, `width`,
`height`, `framerate`) plus the structure's media-type `name`
(`c.get_name()`), which the Python code adds to every row dict. -/
structure CapRow where
  format : String
  width : DimVal
  height : DimVal
  framerate : FramerateVal
  name : String
deriving DecidableEq, Repr

/-- `extract_dimensions` applied to one field: a `Gst.IntRange` value is
replaced with the maximum (`.high`) value in the range; a scalar passes
through unchanged. -/
def extract_dimension (d : DimVal) : Int :=
  match d with
  | .scalar v => v
  | .intRange _ high => high

/-- `extract_dimensions`: collapse the `width` and `height` fields of one
capability row, returning the `[width, height]` pair. -/
def extract_dimensions (dimensions_obj : CapRow) : Int × Int :=
  (extract_dimension dimensions_obj.width, extract_dimension dimensions_obj.height)

/-- `extract_format`: a `Gst.Fourcc` is its four-character code string. -/
def extract_format (format_obj : String) : String :=
  format_obj

/-- Strict lexicographic order on `(num, denom)` pairs — the order Python's
`sorted` uses on 2-tuples of integers. -/
def pairLt (a b : Int × Int) : Bool :=
  decide (a.1 < b.1) || (decide (a.1 = b.1) && decide (a.2 < b.2))

/-- Insert a pair into a strictly sorted list, dropping it when already
present (one step of `sorted(set(...))`). -/
def insertPair (x : Int × Int) : List (Int × Int) → List (Int × Int)
  | [] => [x]
  | y :: ys =>
    if pairLt x y then x :: y :: ys
    else if x = y then y :: ys
    else y :: insertPair x ys

/-- Python's `sorted(set(l))` on a list of integer pairs: the strictly
sorted list of the distinct elements of `l`. -/
def sortedDedup (l : List (Int × Int)) : List (Int × Int) :=
  l.foldr insertPair []

/-- `extract_fps`: normalize a framerate value to a list of
`(numerator, denominator)` pairs.  Iterating a Python list appends each
fraction; a non-iterable `Gst.FractionRange` contributes its low and high
endpoints; a non-iterable single fraction contributes itself.  The
collected pairs are returned as `sorted(set(framerates))`. -/
def extract_fps (framerate_obj : FramerateVal) : List (Int × Int) :=
  let framerates :=
    match framerate_obj with
    | .fracList fs => fs.map fun fps => (fps.num, fps.denom)
    | .fracRange low high => [(low.num, low.denom), (high.num, high.denom)]
    | .frac fps => [(fps.num, fps.denom)]
  sortedDedup framerates

/-- One row of the data frame built by `expand_allowed_capabilities`:
the non-dropped columns of the input row (`name`), the derived `fourcc`,
the collapsed `width`/`height`, one `(framerate_num, framerate_denom)`
pair, and the convenience quotient `framerate` (modelled as an exact
rational). -/
structure ModeRow where
  width : Int
  height : Int
  name : String
  fourcc : String
  framerate_num : Int
  framerate_denom : Int
  framerate : Rat
deriving DecidableEq, Repr

/-- The rows `expand_allowed_capabilities` produces from one input
capability row: one output row per pair in `extract_fps` of the row's
framerate, all sharing the row's collapsed dimensions, fourcc and name
(`mode_i.tolist() + list(fps_j)`), with
`framerate = framerate_num / framerate_denom` computed afterwards. -/
def expand_row (r : CapRow) : List ModeRow :=
  (extract_fps r.framerate).map fun fps =>
    { width := (extract_dimensions r).1
      height := (extract_dimensions r).2
      name := r.name
      fourcc := extract_format r.format
      framerate_num := fps.1
      framerate_denom := fps.2
      framerate := (fps.1 : Rat) / (fps.2 : Rat) }

/-- `expand_allowed_capabilities` on the row level: each input row expands
to its `expand_row` list, concatenated in input order. -/
def expand_allowed_capabilities (df_allowed_caps : List CapRow) : List ModeRow :=
  (df_allowed_caps.map expand_row).flatten

/-! ### Column bookkeeping of the data-frame operations

The pandas operations in `expand_allowed_capabilities` and
`get_source_capabilities` are modelled on the column level, call by call:
`drop(['framerate', 'width', 'height', 'format'], axis=1)`, the new-column
assignment `df_modes['fourcc'] = ...`, `insert(0, 'width')`,
`insert(1, 'height')`, the two list-expansion columns `framerate_num` and
`framerate_denom`, the new column `df_modes['framerate'] = ...`, and
finally `insert(0, 'device_name')` in `get_source_capabilities`. -/

/-- Columns of the frame returned by `get_allowed_capabilities` for a raw
video capabilities structure: the structure's keys (`format`, `framerate`,
`height`, `width`) plus the `name` entry the code appends to every row. -/
def df_allowed_caps_columns : List String :=
  ["format", "framerate", "height", "name", "width"]

/-- `df.drop(cols, axis=1)` on the column level. -/
def dropColumns (cols dropped : List String) : List String :=
  cols.filter fun c => !(dropped.contains c)

/-- `df.insert(1, col, ...)` on the column level. -/
def insertColumnAt1 (col : String) : List String → List String
  | [] => [col]
  | c :: cs => c :: col :: cs

/-- Columns of the frame returned by `expand_allowed_capabilities`,
following the pandas calls one by one. -/
def expanded_columns : List String :=
  let modes := dropColumns df_allowed_caps_columns
    ["framerate", "width", "height", "format"]
  let modes := modes ++ ["fourcc"]
  let modes := "width" :: modes
  let modes := insertColumnAt1 "height" modes
  let modes := modes ++ ["framerate_num", "framerate_denom"]
  modes ++ ["framerate"]

/-- Columns of the frame returned by `get_source_capabilities`
(`insert(0, 'device_name', ...)` on each per-device expanded frame). -/
def source_capabilities_columns : List String :=
  "device_name" :: expanded_columns

/-! ### Device discovery and capability aggregation -/

/-- The `DeviceNotFound` exception raised by `get_video_source_names`. -/
structure DeviceNotFound where
  message : String
deriving DecidableEq, Repr

/-- The platform branch taken by `platform.system() == 'Linux'`. -/
inductive Platform where
  | linux
  | windows
deriving DecidableEq, Repr

/-- Outcome of an external call that the Python code wraps in
`try`/`except`: either a value, or the exception the call raised. -/
inductive ExtCall (α : Type) where
  | ok (val : α)
  | raised
deriving DecidableEq, Repr

/-- `get_video_source_names`: on Linux, list `/dev/v4l/by-id`, turning an
`OSError` into `DeviceNotFound`; otherwise, probe the source element's
device-name property values (any exception leaving an empty list) and
raise `DeviceNotFound` when the resulting list is empty.  The directory
listing and the property probe are passed in as the outcomes of the two
external calls. -/
def get_video_source_names (plat : Platform)
    (listdir_by_id : ExtCall (List String))
    (probe_values : ExtCall (List String)) :
    Except DeviceNotFound (List String) :=
  match plat with
  | .linux =>
    match listdir_by_id with
    | .raised => .error ⟨"No devices available"⟩
    | .ok devices => .ok devices
  | .windows =>
    let devices := match probe_values with
      | .raised => []
      | .ok ds => ds
    if devices.isEmpty then .error ⟨"No devices available"⟩
    else .ok devices

/-- Outcome of probing one device inside the throwaway
`video_source ! autovideosink` pipeline of `get_allowed_capabilities`:
either the allowed-capabilities rows read from the source pad, or a
`Gst.LinkError` while linking. -/
inductive ProbeResult where
  | caps (rows : List CapRow)
  | linkError
deriving DecidableEq, Repr

/-- `get_allowed_capabilities`: the per-device probe, with the probe's
outcome supplied by the environment.  A `Gst.LinkError` is caught and
logged and yields an empty frame. -/
def get_allowed_capabilities (probe : String → ProbeResult)
    (device_name : String) : List CapRow :=
  match probe device_name with
  | .caps rows => rows
  | .linkError => []

/-- One row of the aggregated frame of `get_source_capabilities`: an
expanded mode row with the `device_name` column inserted at position 0. -/
structure SourceCapRow where
  device_name : String
  width : Int
  height : Int
  name : String
  fourcc : String
  framerate_num : Int
  framerate_denom : Int
  framerate : Rat
deriving DecidableEq, Repr

/-- `df_source_caps_i.insert(0, 'device_name', device_name_i)` on one row. -/
def insert_device_name (device_name : String) (m : ModeRow) : SourceCapRow :=
  { device_name := device_name
    width := m.width
    height := m.height
    name := m.name
    fourcc := m.fourcc
    framerate_num := m.framerate_num
    framerate_denom := m.framerate_denom
    framerate := m.framerate }

/-- The loop body of `get_source_capabilities` for one device: query the
device's allowed capabilities; a device with no allowed capabilities is
skipped (`continue`, contributing no frame); otherwise its expanded frame
with the `device_name` column inserted at position 0 is contributed. -/
def device_frame (probe : String → ProbeResult)
    (device_name_i : String) : List SourceCapRow :=
  let df_allowed_caps_i := get_allowed_capabilities probe device_name_i
  if df_allowed_caps_i.length = 0 then []
  else (expand_allowed_capabilities df_allowed_caps_i).map
    (insert_device_name device_name_i)

/-- `get_source_capabilities`: with `video_source_names is None` the device
list comes from `get_video_source_names()` (whose outcome is passed in);
each named device contributes its `device_frame`, the collected frames are
concatenated, and with no frames at all the result is the empty frame. -/
def get_source_capabilities (probe : String → ProbeResult)
    (discovered : Except DeviceNotFound (List String))
    (video_source_names : Option (List String)) :
    Except DeviceNotFound (List SourceCapRow) := do
  let names ← match video_source_names with
    | none => discovered
    | some ns => pure ns
  let frames := names.map (device_frame probe)
  return frames.flatten

/-! ### Pipeline graph assembly (`video_pipeline/__init__.py`) -/

/-- A value assigned through `set_property` during assembly: the encoder
bitrate (integer), the file-sink location (string), or the pickled draw
queue (an opaque serialized blob). -/
inductive PropVal where
  | int (i : Int)
  | str (s : String)
  | pickledBlob
deriving DecidableEq, Repr

/-- The pipeline graph as `get_pipeline` builds it: elements in the order
they are added (each as a `(factory, name)` pair; the supplied source
element, the `grab_frame` bin, the `WarpBin` and the `CairoDrawQueue` are
not factory-made and carry their constructor as factory label), pad links
in the order `Gst.element_link_many` creates them (by element name), and
the properties set on elements during assembly. -/
structure Pipeline where
  elements : List (String × String)
  links : List (String × String)
  props : List (String × String × PropVal)
deriving DecidableEq, Repr

/-- `Gst.element_link_many(a, b, c, ...)`: link each consecutive pair. -/
def element_link_many (chain : List String) : List (String × String) :=
  chain.zip chain.tail

/-- Python truthiness of the `bitrate` argument (`None` default): an
integer is truthy exactly when nonzero. -/
def truthyInt (v : Option Int) : Bool :=
  match v with
  | none => false
  | some i => !(i = 0)

/-- Python truthiness of the `output_path` argument (`None` default): a
string is truthy exactly when nonempty. -/
def truthyStr (v : Option String) : Bool :=
  match v with
  | none => false
  | some s => !(s = "")

/-- `get_pipeline`: assemble the processing graph.  The supplied source
element is identified by the label `"video_source"`.  Backbone
`video_source → video_rate → video_tee`, display branch
`video_tee → display_queue → [grab] → [scale] → [warp] → [draw] →
video_sink` with `display_pre_sink` tracking the current tail, and a
capture branch `video_tee → capture_queue → ffmpeg_color_space →
ffenc_mpeg40 → avi_mux → file_sink` added when `bitrate and output_path`
is truthy (encoder factory `ffenc_mpeg4` on Linux, `xvidenc` otherwise).
`draw_queue` and `on_frame_grabbed` are modelled as presence flags
(`if draw_queue:` / `if on_frame_grabbed:` on the `None`-defaulted
arguments). -/
def get_pipeline (plat : Platform) (bitrate : Option Int)
    (output_path : Option String) (draw_queue : Bool)
    (with_scale : Bool) (with_warp : Bool) (on_frame_grabbed : Bool) :
    Pipeline :=
  let elements := [("video_source", "video_source")]
  let elements := elements ++
    [("videorate", "video_rate"), ("tee", "video_tee")]
  let links := element_link_many ["video_source", "video_rate", "video_tee"]
  let elements := elements ++
    [("queue", "display_queue"), ("autovideosink", "video_sink")]
  let links := links ++ element_link_many ["video_tee", "display_queue"]
  let display_pre_sink := "display_queue"
  let (elements, links, display_pre_sink) :=
    if on_frame_grabbed then
      (elements ++ [("ffmpegcolorspace", "grab_frame_color_in"),
                    ("grab_frame", "grab_frame"),
                    ("ffmpegcolorspace", "grab_frame_color_out")],
       links ++ element_link_many [display_pre_sink, "grab_frame_color_in",
                                   "grab_frame", "grab_frame_color_out"],
       "grab_frame_color_out")
    else (elements, links, display_pre_sink)
  let (elements, links, display_pre_sink) :=
    if with_scale then
      (elements ++ [("videoscale", "video_scale"),
                    ("capsfilter", "video_scale_caps_filter")],
       links ++ element_link_many [display_pre_sink, "video_scale",
                                   "video_scale_caps_filter"],
       "video_scale_caps_filter")
    else (elements, links, display_pre_sink)
  let (elements, links, display_pre_sink) :=
    if with_warp then
      (elements ++ [("WarpBin", "warp_bin")],
       links ++ element_link_many [display_pre_sink, "warp_bin"],
       "warp_bin")
    else (elements, links, display_pre_sink)
  let (elements, links, props, display_pre_sink) :=
    if draw_queue then
      (elements ++ [("ffmpegcolorspace", "cairo_color_in"),
                    ("CairoDrawQueue", "cairo_draw"),
                    ("ffmpegcolorspace", "cairo_color_out")],
       links ++ element_link_many [display_pre_sink, "cairo_color_in",
                                   "cairo_draw", "cairo_color_out"],
       [("cairo_draw", "draw-queue", PropVal.pickledBlob)],
       "cairo_color_out")
    else (elements, links, [], display_pre_sink)
  let links := links ++ element_link_many [display_pre_sink, "video_sink"]
  let (elements, links, props) :=
    if truthyInt bitrate && truthyStr output_path then
      (elements ++ [("queue", "capture_queue"),
                    ("ffmpegcolorspace", "ffmpeg_color_space"),
                    ((if plat = Platform.linux then "ffenc_mpeg4"
                      else "xvidenc"), "ffenc_mpeg40"),
                    ("avimux", "avi_mux"),
                    ("filesink", "file_sink")],
       links ++ element_link_many ["video_tee", "capture_queue",
                                   "ffmpeg_color_space", "ffenc_mpeg40",
                                   "avi_mux", "file_sink"],
       props ++ [("ffenc_mpeg40", "bitrate",
                  PropVal.int (bitrate.getD 0)),
                 ("file_sink", "location",
                  PropVal.str (output_path.getD ""))])
    else (elements, links, props)
  { elements := elements, links := links, props := props }

/-! ### Overlay draw transform (`elements/cairo_draw.py`) -/

/-- A GStreamer flow return value; `Gst.FLOW_OK` is the success status. -/
inductive FlowReturn where
  | flowOk
deriving DecidableEq, Repr

/-- Outcome of a Python call as seen by the caller: a normal return, or an
exception propagating out of the call. -/
inductive PyResult (α : Type) where
  | ok (val : α)
  | exn
deriving DecidableEq, Repr

/-- What happened inside one invocation of a drawing callback. -/
inductive DrawOutcome where
  | drawn
  | surfaceFailureLogged
  | renderFailureLogged
  | noQueue
deriving DecidableEq, Repr

/-- The two fallible phases of drawing on one buffer, as resolved by the
environment: whether reading the caps and creating the Cairo surface for
the buffer succeeds, and whether issuing the drawing commands succeeds. -/
structure DrawEnv where
  surface_ok : Bool
  render_ok : Bool
deriving DecidableEq, Repr

namespace CairoDrawBase

/-- `CairoDrawBase.draw_on` (and the default `other_draw_on` alike): the
surface-acquisition block is wrapped in a bare `except:` that prints,
logs the traceback and returns; the drawing-command block is wrapped in a
second bare `except:` that prints and logs the traceback.  No exception
escapes the call. -/
def draw_on (env : DrawEnv) : PyResult DrawOutcome :=
  if !env.surface_ok then .ok .surfaceFailureLogged
  else if !env.render_ok then .ok .renderFailureLogged
  else .ok .drawn

/-- `CairoDrawBase.do_transform_ip`: call `self.draw_on(buffer)` and
return `Gst.FLOW_OK`.  The buffer is transformed in place, so returning
normally forwards it; an exception escaping `draw_on` propagates. -/
def do_transform_ip (draw_on_result : PyResult DrawOutcome) :
    PyResult FlowReturn :=
  match draw_on_result with
  | .ok _ => .ok .flowOk
  | .exn => .exn

end CairoDrawBase

namespace CairoDrawQueue

/-- `CairoDrawQueue.render_draw_queue`, installed as the instance's
`draw_on`: when a draw queue is configured, the surface-acquisition block
is wrapped in a bare `except:` that prints, logs and returns, but the
subsequent `self.draw_queue.render(ctx)` call sits outside any
`try`/`except`, so an exception it raises propagates to the caller. -/
def render_draw_queue (draw_queue_set : Bool) (env : DrawEnv) :
    PyResult DrawOutcome :=
  if draw_queue_set then
    if !env.surface_ok then .ok .surfaceFailureLogged
    else if env.render_ok then .ok .drawn
    else .exn
  else .ok .noQueue

end CairoDrawQueue

/-! ### Expected pipeline shapes

These definitions state the shapes the specification describes (display
chain with optional stages in fixed order, capture branch attached at the
tee); they are compared against `get_pipeline`, which was embedded from
the source. -/

/-- The element names of the display branch from the tee to the sink,
with the optional grab/scale/warp/draw stages in that fixed order. -/
def displayChain (grab scale warp draw : Bool) : List String :=
  ["video_tee", "display_queue"] ++
  (if grab then ["grab_frame_color_in", "grab_frame", "grab_frame_color_out"]
   else []) ++
  (if scale then ["video_scale", "video_scale_caps_filter"] else []) ++
  (if warp then ["warp_bin"] else []) ++
  (if draw then ["cairo_color_in", "cairo_draw", "cairo_color_out"] else []) ++
  ["video_sink"]

/-- The links of the always-present backbone `source → videorate → tee`. -/
def backboneLinks : List (String × String) :=
  [("video_source", "video_rate"), ("video_rate", "video_tee")]

/-- The consecutive pairs of a chain of element names — the links a single
linear chain consists of. -/
def chainPairs (chain : List String) : List (String × String) :=
  chain.zip chain.tail

/-- The capture branch's elements: queue, colorspace converter,
platform-appropriate encoder, AVI muxer, file sink. -/
def captureElements (plat : Platform) : List (String × String) :=
  [("queue", "capture_queue"),
   ("ffmpegcolorspace", "ffmpeg_color_space"),
   ((if plat = Platform.linux then "ffenc_mpeg4" else "xvidenc"),
    "ffenc_mpeg40"),
   ("avimux", "avi_mux"),
   ("filesink", "file_sink")]

/-- The capture branch's links, attached at the tee. -/
def captureLinks : List (String × String) :=
  [("video_tee", "capture_queue"),
   ("capture_queue", "ffmpeg_color_space"),
   ("ffmpeg_color_space", "ffenc_mpeg40"),
   ("ffenc_mpeg40", "avi_mux"),
   ("avi_mux", "file_sink")]

/-- The full expected element list: backbone and display elements in the
order they are added, the requested optional display stages, and the
capture branch exactly when `capture` holds. -/
def expectedElements (plat : Platform)
    (grab scale warp draw capture : Bool) : List (String × String) :=
  [("video_source", "video_source"), ("videorate", "video_rate"),
   ("tee", "video_tee"), ("queue", "display_queue"),
   ("autovideosink", "video_sink")] ++
  (if grab then [("ffmpegcolorspace", "grab_frame_color_in"),
                 ("grab_frame", "grab_frame"),
                 ("ffmpegcolorspace", "grab_frame_color_out")] else []) ++
  (if scale then [("videoscale", "video_scale"),
                  ("capsfilter", "video_scale_caps_filter")] else []) ++
  (if warp then [("WarpBin", "warp_bin")] else []) ++
  (if draw then [("ffmpegcolorspace", "cairo_color_in"),
                 ("CairoDrawQueue", "cairo_draw"),
                 ("ffmpegcolorspace", "cairo_color_out")] else []) ++
  (if capture then captureElements plat else [])

/-- The properties set during assembly: the pickled draw queue on the
overlay element when requested, and the encoder bitrate and file-sink
location when the capture branch is built. -/
def expectedProps (bitrate : Option Int) (output_path : Option String)
    (draw capture : Bool) : List (String × String × PropVal) :=
  (if draw then [("cairo_draw", "draw-queue", PropVal.pickledBlob)]
   else []) ++
  (if capture then [("ffenc_mpeg40", "bitrate", PropVal.int (bitrate.getD 0)),
                    ("file_sink", "location",
                     PropVal.str (output_path.getD ""))] else [])

/-- Full characterization of `get_pipeline`: its elements, links and
properties equal the expected shapes, with the capture branch present
exactly when `bitrate and output_path` is truthy. -/
def framePair (m : ModeRow) : Int × Int :=
  (m.framerate_num, m.framerate_denom)

/-! ### Helper lemmas about `sortedDedup` (Python's `sorted(set(...))`) -/
theorem pairLt_iff {a b : Int × Int} :
    pairLt a b = true ↔ a.1 < b.1 ∨ (a.1 = b.1 ∧ a.2 < b.2) := by
  simp [pairLt, Bool.or_eq_true, Bool.and_eq_true, decide_eq_true_iff]

theorem pairLt_irrefl (a : Int × Int) : pairLt a a = false := by
  have h : ¬ (pairLt a a = true) := by
    rw [pairLt_iff]; omega
  simpa using h

theorem pairLt_ne {a b : Int × Int} (h : pairLt a b = true) : a ≠ b := by
  rintro rfl
  simp [pairLt_irrefl] at h

theorem pairLt_trans {a b c : Int × Int} (hab : pairLt a b = true)
    (hbc : pairLt b c = true) : pairLt a c = true := by
  rw [pairLt_iff] at hab hbc ⊢
  omega

theorem pairLt_total {a b : Int × Int} (hne : a ≠ b)
    (h : ¬ pairLt a b = true) : pairLt b a = true := by
  obtain ⟨a1, a2⟩ := a
  obtain ⟨b1, b2⟩ := b
  rw [pairLt_iff] at h ⊢
  dsimp only at h ⊢
  simp only [ne_eq, Prod.mk.injEq, not_and] at hne
  by_cases h1 : a1 = b1
  · subst h1
    simp only [forall_const] at hne
    omega
  · omega

theorem mem_insertPair {a x : Int × Int} {l : List (Int × Int)} :
    a ∈ insertPair x l ↔ a = x ∨ a ∈ l := by
  induction l with
  | nil => simp [insertPair]
  | cons y ys ih =>
    unfold insertPair
    split_ifs with h1 h2
    · simp only [List.mem_cons]
    · subst h2
      simp only [List.mem_cons]
      tauto
    · simp only [List.mem_cons, ih]
      tauto

theorem pairwise_insertPair {x : Int × Int} {l : List (Int × Int)}
    (h : l.Pairwise (fun a b => pairLt a b = true)) :
    (insertPair x l).Pairwise (fun a b => pairLt a b = true) := by
  induction l with
  | nil => simp [insertPair]
  | cons y ys ih =>
    rw [List.pairwise_cons] at h
    obtain ⟨hy, hys⟩ := h
    unfold insertPair
    split_ifs with h1 h2
    · refine List.pairwise_cons.2 ⟨?_, List.pairwise_cons.2 ⟨hy, hys⟩⟩
      intro z hz
      rcases List.mem_cons.mp hz with rfl | hz'
      · exact h1
      · exact pairLt_trans h1 (hy z hz')
    · exact List.pairwise_cons.2 ⟨hy, hys⟩
    · refine List.pairwise_cons.2 ⟨?_, ih hys⟩
      intro z hz
      rcases mem_insertPair.mp hz with rfl | hz'
      · exact pairLt_total h2 h1
      · exact hy z hz'

theorem sortedDedup_pairwise (l : List (Int × Int)) :
    (sortedDedup l).Pairwise (fun a b => pairLt a b = true) := by
  induction l with
  | nil => simp [sortedDedup]
  | cons x xs ih => exact pairwise_insertPair ih

theorem sortedDedup_nodup (l : List (Int × Int)) :
    List.Nodup (sortedDedup l) :=
  (sortedDedup_pairwise l).imp fun h => pairLt_ne h

theorem mem_sortedDedup {a : Int × Int} {l : List (Int × Int)} :
    a ∈ sortedDedup l ↔ a ∈ l := by
  induction l with
  | nil => simp [sortedDedup]
  | cons x xs ih =>
    show a ∈ insertPair x (sortedDedup xs) ↔ _
    rw [mem_insertPair, ih]
    simp

theorem sortedDedup_length (l : List (Int × Int)) :
    (sortedDedup l).length = l.dedup.length := by
  have hperm : List.Perm (sortedDedup l) l.dedup := by
    rw [List.perm_ext_iff_of_nodup (sortedDedup_nodup l) (List.nodup_dedup l)]
    intro a
    rw [mem_sortedDedup, List.mem_dedup]
  exact hperm.length_eq

theorem get_pipeline_characterization (plat : Platform) (bitrate : Option Int)
    (output_path : Option String) (draw_queue with_scale with_warp
    on_frame_grabbed : Bool) :
    (get_pipeline plat bitrate output_path draw_queue with_scale with_warp
        on_frame_grabbed).elements =
      expectedElements plat on_frame_grabbed with_scale with_warp draw_queue
        (truthyInt bitrate && truthyStr output_path) ∧
    (get_pipeline plat bitrate output_path draw_queue with_scale with_warp
        on_frame_grabbed).links =
      backboneLinks ++
        chainPairs (displayChain on_frame_grabbed with_scale with_warp
          draw_queue) ++
        (if truthyInt bitrate && truthyStr output_path then captureLinks
         else []) ∧
    (get_pipeline plat bitrate output_path draw_queue with_scale with_warp
        on_frame_grabbed).props =
      expectedProps bitrate output_path draw_queue
        (truthyInt bitrate && truthyStr output_path) := by
  cases hc : truthyInt bitrate && truthyStr output_path <;>
    cases on_frame_grabbed <;> cases with_scale <;> cases with_warp <;>
    cases draw_queue <;>
    simp [get_pipeline, expectedElements, expectedProps, displayChain,
          backboneLinks, chainPairs, captureElements, captureLinks,
          element_link_many, hc]

/-! ### Per-row normalization lemmas -/

theorem expand_row_fracRange (r : CapRow) (low high : Fraction)
    (hfr : r.framerate = .fracRange low high)
    (hlt : low.num * high.denom < high.num * low.denom) :
    ∃ m1 m2, expand_row r = [m1, m2] ∧
      m1.width = m2.width ∧ m1.height = m2.height ∧
      m1.fourcc = m2.fourcc ∧ m1.name = m2.name ∧
      ((m1.framerate_num = low.num ∧ m1.framerate_denom = low.denom ∧
        m2.framerate_num = high.num ∧ m2.framerate_denom = high.denom) ∨
       (m1.framerate_num = high.num ∧ m1.framerate_denom = high.denom ∧
        m2.framerate_num = low.num ∧ m2.framerate_denom = low.denom)) := by
  have hne : (low.num, low.denom) ≠ (high.num, high.denom) := by
    intro h
    rw [Prod.mk.injEq] at h
    rw [h.1, h.2] at hlt
    exact lt_irrefl _ hlt
  have hfps : extract_fps r.framerate =
      insertPair (low.num, low.denom) [(high.num, high.denom)] := by
    rw [hfr]
    rfl
  by_cases hplt : pairLt (low.num, low.denom) (high.num, high.denom) = true
  · have hlist : extract_fps r.framerate =
        [(low.num, low.denom), (high.num, high.denom)] := by
      rw [hfps]
      simp [insertPair, hplt]
    have hexp : expand_row r =
        [{ width := (extract_dimensions r).1
           height := (extract_dimensions r).2
           name := r.name
           fourcc := extract_format r.format
           framerate_num := low.num
           framerate_denom := low.denom
           framerate := (low.num : Rat) / (low.denom : Rat) },
         { width := (extract_dimensions r).1
           height := (extract_dimensions r).2
           name := r.name
           fourcc := extract_format r.format
           framerate_num := high.num
           framerate_denom := high.denom
           framerate := (high.num : Rat) / (high.denom : Rat) }] := by
      unfold expand_row
      rw [hlist]
      rfl
    exact ⟨_, _, hexp, rfl, rfl, rfl, rfl, Or.inl ⟨rfl, rfl, rfl, rfl⟩⟩
  · have hlist : extract_fps r.framerate =
        [(high.num, high.denom), (low.num, low.denom)] := by
      rw [hfps]
      simp [insertPair, hplt, hne]
    have hexp : expand_row r =
        [{ width := (extract_dimensions r).1
           height := (extract_dimensions r).2
           name := r.name
           fourcc := extract_format r.format
           framerate_num := high.num
           framerate_denom := high.denom
           framerate := (high.num : Rat) / (high.denom : Rat) },
         { width := (extract_dimensions r).1
           height := (extract_dimensions r).2
           name := r.name
           fourcc := extract_format r.format
           framerate_num := low.num
           framerate_denom := low.denom
           framerate := (low.num : Rat) / (low.denom : Rat) }] := by
      unfold expand_row
      rw [hlist]
      rfl
    exact ⟨_, _, hexp, rfl, rfl, rfl, rfl, Or.inr ⟨rfl, rfl, rfl, rfl⟩⟩

theorem expand_row_fracList (r : CapRow) (fs : List Fraction)
    (hfr : r.framerate = .fracList fs) :
    ((expand_row r).map framePair).Pairwise (fun a b => pairLt a b = true) ∧
    ((expand_row r).map framePair).Nodup ∧
    (∀ p, p ∈ (expand_row r).map framePair ↔
      p ∈ fs.map fun f => (f.num, f.denom)) ∧
    (expand_row r).length = (fs.map fun f => (f.num, f.denom)).dedup.length ∧
    ∀ m ∈ expand_row r, m.width = (extract_dimensions r).1 ∧
      m.height = (extract_dimensions r).2 ∧
      m.fourcc = extract_format r.format ∧ m.name = r.name := by
  have hmap : (expand_row r).map framePair = extract_fps r.framerate := by
    unfold expand_row
    rw [List.map_map]
    have hcomp : (framePair ∘ fun fps : Int × Int =>
        ({ width := (extract_dimensions r).1
           height := (extract_dimensions r).2
           name := r.name
           fourcc := extract_format r.format
           framerate_num := fps.1
           framerate_denom := fps.2
           framerate := (fps.1 : Rat) / (fps.2 : Rat) } : ModeRow)) = id := by
      funext fps
      rfl
    rw [hcomp, List.map_id]
  have hfps : extract_fps r.framerate =
      sortedDedup (fs.map fun f => (f.num, f.denom)) := by
    rw [hfr]
    rfl
  refine ⟨?_, ?_, ?_, ?_, ?_⟩
  · rw [hmap, hfps]
    exact sortedDedup_pairwise _
  · rw [hmap, hfps]
    exact sortedDedup_nodup _
  · intro p
    rw [hmap, hfps, mem_sortedDedup]
  · have hlen : (expand_row r).length =
        ((expand_row r).map framePair).length := (List.length_map _ _).symm
    rw [hlen, hmap, hfps, sortedDedup_length]
  · intro m hm
    unfold expand_row at hm
    obtain ⟨fps, _, rfl⟩ := List.mem_map.mp hm
    exact ⟨rfl, rfl, rfl, rfl⟩

theorem expand_row_frac (r : CapRow) (f : Fraction)
    (hfr : r.framerate = .frac f) :
    expand_row r =
      [{ width := (extract_dimensions r).1
         height := (extract_dimensions r).2
         name := r.name
         fourcc := extract_format r.format
         framerate_num := f.num
         framerate_denom := f.denom
         framerate := (f.num : Rat) / (f.denom : Rat) }] := by
  unfold expand_row
  rw [hfr]
  rfl

/-! ### Claim theorems -/

/-- Claim C2: when normalizing allowed capabilities, a framerate given as a
fraction range (with GStreamer's fraction-range invariant that the low
endpoint is strictly below the high endpoint as a rational) produces
exactly two output rows for the capability row — one for the range's low
endpoint and one for its high endpoint — differing only in the framerate
fields; a framerate given as a list of fractions produces one output row
per distinct listed value, deduplicated and sorted; a scalar framerate
produces exactly one row. -/
theorem framerate_expansion_per_row :
    (∀ (r : CapRow) (low high : Fraction),
      r.framerate = .fracRange low high →
      low.num * high.denom < high.num * low.denom →
      ∃ m1 m2, expand_row r = [m1, m2] ∧
        m1.width = m2.width ∧ m1.height = m2.height ∧
        m1.fourcc = m2.fourcc ∧ m1.name = m2.name ∧
        ((m1.framerate_num = low.num ∧ m1.framerate_denom = low.denom ∧
          m2.framerate_num = high.num ∧ m2.framerate_denom = high.denom) ∨
         (m1.framerate_num = high.num ∧ m1.framerate_denom = high.denom ∧
          m2.framerate_num = low.num ∧ m2.framerate_denom = low.denom))) ∧
    (∀ (r : CapRow) (fs : List Fraction),
      r.framerate = .fracList fs →
      ((expand_row r).map framePair).Pairwise
        (fun a b => pairLt a b = true) ∧
      ((expand_row r).map framePair).Nodup ∧
      (∀ p, p ∈ (expand_row r).map framePair ↔
        p ∈ fs.map fun f => (f.num, f.denom)) ∧
      (expand_row r).length =
        (fs.map fun f => (f.num, f.denom)).dedup.length ∧
      ∀ m ∈ expand_row r, m.width = (extract_dimensions r).1 ∧
        m.height = (extract_dimensions r).2 ∧
        m.fourcc = extract_format r.format ∧ m.name = r.name) ∧
    (∀ (r : CapRow) (f : Fraction),
      r.framerate = .frac f →
      expand_row r =
        [{ width := (extract_dimensions r).1
           height := (extract_dimensions r).2
           name := r.name
           fourcc := extract_format r.format
           framerate_num := f.num
           framerate_denom := f.denom
           framerate := (f.num : Rat) / (f.denom : Rat) }]) :=
  ⟨expand_row_fracRange, expand_row_fracList, expand_row_frac⟩

/-- Witness for C2: evaluating the three framerate shapes on concrete
capability rows — a 15/1‥30/1 range gives two rows, the list
`[30/1, 15/1, 30/1, 15/2]` gives three rows, a scalar 25/1 gives one. -/
theorem framerate_expansion_per_row_witness :
    (expand_row ⟨"YUY2", .scalar 640, .scalar 480,
      .fracRange ⟨15, 1⟩ ⟨30, 1⟩, "video/x-raw-yuv"⟩).length = 2 ∧
    (expand_row ⟨"YUY2", .scalar 640, .scalar 480,
      .fracList [⟨30, 1⟩, ⟨15, 1⟩, ⟨30, 1⟩, ⟨15, 2⟩],
      "video/x-raw-yuv"⟩).length = 3 ∧
    (expand_row ⟨"YUY2", .scalar 640, .scalar 480, .frac ⟨25, 1⟩,
      "video/x-raw-yuv"⟩).length = 1 := by
  refine ⟨?_, ?_, ?_⟩
  · obtain ⟨m1, m2, hexp, -⟩ :=
      framerate_expansion_per_row.1
        ⟨"YUY2", .scalar 640, .scalar 480,
          .fracRange ⟨15, 1⟩ ⟨30, 1⟩, "video/x-raw-yuv"⟩
        ⟨15, 1⟩ ⟨30, 1⟩ rfl (by decide)
    rw [hexp]
    rfl
  · have h := framerate_expansion_per_row.2.1
      ⟨"YUY2", .scalar 640, .scalar 480,
        .fracList [⟨30, 1⟩, ⟨15, 1⟩, ⟨30, 1⟩, ⟨15, 2⟩], "video/x-raw-yuv"⟩
      [⟨30, 1⟩, ⟨15, 1⟩, ⟨30, 1⟩, ⟨15, 2⟩] rfl
    rw [h.2.2.2.1]
    decide
  · rw [framerate_expansion_per_row.2.2
      ⟨"YUY2", .scalar 640, .scalar 480, .frac ⟨25, 1⟩, "video/x-raw-yuv"⟩
      ⟨25, 1⟩ rfl]
    rfl

/-- Claim C3: a width or height given as an integer range collapses to the
range's upper bound in every output row derived from that capability row;
scalar width/height values pass through unchanged. -/
theorem dimension_range_collapse :
    (∀ (r : CapRow) (low high : Int), r.width = .intRange low high →
      ∀ m ∈ expand_row r, m.width = high) ∧
    (∀ (r : CapRow) (low high : Int), r.height = .intRange low high →
      ∀ m ∈ expand_row r, m.height = high) ∧
    (∀ (r : CapRow) (v : Int), r.width = .scalar v →
      ∀ m ∈ expand_row r, m.width = v) ∧
    (∀ (r : CapRow) (v : Int), r.height = .scalar v →
      ∀ m ∈ expand_row r, m.height = v) := by
  refine ⟨?_, ?_, ?_, ?_⟩
  · intro r low high h m hm
    unfold expand_row at hm
    obtain ⟨fps, -, rfl⟩ := List.mem_map.mp hm
    simp [extract_dimensions, extract_dimension, h]
  · intro r low high h m hm
    unfold expand_row at hm
    obtain ⟨fps, -, rfl⟩ := List.mem_map.mp hm
    simp [extract_dimensions, extract_dimension, h]
  · intro r v h m hm
    unfold expand_row at hm
    obtain ⟨fps, -, rfl⟩ := List.mem_map.mp hm
    simp [extract_dimensions, extract_dimension, h]
  · intro r v h m hm
    unfold expand_row at hm
    obtain ⟨fps, -, rfl⟩ := List.mem_map.mp hm
    simp [extract_dimensions, extract_dimension, h]

/-- Witness for C3: a row with ranged dimensions 160‥640 × 120‥480
expands to a row of width 640 and height 480, and a row with scalar
dimensions 320 × 240 keeps them. -/
theorem dimension_range_collapse_witness :
    (⟨640, 480, "video/x-raw-yuv", "YUY2", 30, 1, 30⟩ : ModeRow) ∈
      expand_row ⟨"YUY2", .intRange 160 640, .intRange 120 480,
        .frac ⟨30, 1⟩, "video/x-raw-yuv"⟩ ∧
    (⟨640, 480, "video/x-raw-yuv", "YUY2", 30, 1, 30⟩ : ModeRow).width =
      640 ∧
    (⟨640, 480, "video/x-raw-yuv", "YUY2", 30, 1, 30⟩ : ModeRow).height =
      480 ∧
    (⟨320, 240, "video/x-raw-yuv", "YUY2", 30, 1, 30⟩ : ModeRow) ∈
      expand_row ⟨"YUY2", .scalar 320, .scalar 240, .frac ⟨30, 1⟩,
        "video/x-raw-yuv"⟩ ∧
    (⟨320, 240, "video/x-raw-yuv", "YUY2", 30, 1, 30⟩ : ModeRow).width =
      320 ∧
    (⟨320, 240, "video/x-raw-yuv", "YUY2", 30, 1, 30⟩ : ModeRow).height =
      240 := by
  have hm1 : (⟨640, 480, "video/x-raw-yuv", "YUY2", 30, 1, 30⟩ : ModeRow) ∈
      expand_row ⟨"YUY2", .intRange 160 640, .intRange 120 480,
        .frac ⟨30, 1⟩, "video/x-raw-yuv"⟩ := by
    rw [expand_row_frac _ ⟨30, 1⟩ rfl]
    simp [extract_dimensions, extract_dimension, extract_format]
  have hm2 : (⟨320, 240, "video/x-raw-yuv", "YUY2", 30, 1, 30⟩ : ModeRow) ∈
      expand_row ⟨"YUY2", .scalar 320, .scalar 240, .frac ⟨30, 1⟩,
        "video/x-raw-yuv"⟩ := by
    rw [expand_row_frac _ ⟨30, 1⟩ rfl]
    simp [extract_dimensions, extract_dimension, extract_format]
  exact ⟨hm1,
    dimension_range_collapse.1 _ 160 640 rfl _ hm1,
    dimension_range_collapse.2.1 _ 120 480 rfl _ hm1,
    hm2,
    dimension_range_collapse.2.2.1 _ 320 rfl _ hm2,
    dimension_range_collapse.2.2.2 _ 240 rfl _ hm2⟩

/-- Every expanded mode row's `framerate` is the quotient of its
`framerate_num` and `framerate_denom` columns. -/
theorem expand_framerate_quotient (df : List CapRow) :
    ∀ m ∈ expand_allowed_capabilities df,
      m.framerate = (m.framerate_num : Rat) / (m.framerate_denom : Rat) := by
  intro m hm
  unfold expand_allowed_capabilities at hm
  rw [List.mem_flatten] at hm
  obtain ⟨l, hl, hml⟩ := hm
  obtain ⟨r, -, rfl⟩ := List.mem_map.mp hl
  unfold expand_row at hml
  obtain ⟨fps, -, rfl⟩ := List.mem_map.mp hml
  rfl

/-- Claim C6: `get_source_capabilities` on an empty list of device names,
or on device names whose capability probes all fail to link, returns the
empty table (an `ok` result, never an exception). -/
theorem empty_source_capabilities :
    (∀ (probe : String → ProbeResult)
       (discovered : Except DeviceNotFound (List String)),
      get_source_capabilities probe discovered (some []) = .ok []) ∧
    (∀ (probe : String → ProbeResult)
       (discovered : Except DeviceNotFound (List String))
       (names : List String),
      (∀ d ∈ names, probe d = .linkError) →
      get_source_capabilities probe discovered (some names) = .ok []) := by
  constructor
  · intro probe discovered
    rfl
  · intro probe discovered names h
    have hmap : names.map (device_frame probe) =
        names.map fun _ => [] := by
      apply List.map_congr_left
      intro d hd
      simp [device_frame, get_allowed_capabilities, h d hd]
    have hnil : ∀ (l : List String),
        (l.map fun _ => ([] : List SourceCapRow)).flatten = [] := by
      intro l
      induction l with
      | nil => rfl
      | cons d ds ih =>
        simp only [List.map_cons, List.flatten_cons, List.nil_append]
        exact ih
    show Except.ok ((names.map (device_frame probe)).flatten) = Except.ok []
    rw [hmap, hnil names]

/-- Witness for C6: a probe that always fails to link yields the empty
table for an empty device list and for a one-device list alike. -/
theorem empty_source_capabilities_witness :
    get_source_capabilities (fun _ => ProbeResult.linkError)
      (Except.error ⟨"No devices available"⟩) (some []) = .ok [] ∧
    get_source_capabilities (fun _ => ProbeResult.linkError)
      (Except.error ⟨"No devices available"⟩)
      (some ["/dev/v4l/by-id/usb-cam0"]) = .ok [] :=
  ⟨empty_source_capabilities.1 (fun _ => ProbeResult.linkError)
      (Except.error ⟨"No devices available"⟩),
   empty_source_capabilities.2 (fun _ => ProbeResult.linkError)
      (Except.error ⟨"No devices available"⟩) ["/dev/v4l/by-id/usb-cam0"]
      (fun _ _ => rfl)⟩

/-- Claim C7 counterexample: on Linux, when the v4l device directory
exists but lists no devices, `get_video_source_names` returns the empty
list instead of failing with `DeviceNotFound`. -/
theorem discovery_empty_list_counterexample :
    get_video_source_names .linux (.ok []) (.ok []) = .ok [] ∧
    get_video_source_names .linux (.ok []) (.ok []) ≠
      .error ⟨"No devices available"⟩ := by
  constructor
  · rfl
  · intro h
    exact Except.noConfusion h

/-- Claim C7 amended: on Windows, discovery fails with `DeviceNotFound`
whenever the discovered list is empty (including when probing raised);
on Linux it fails with `DeviceNotFound` exactly when listing the device
directory raises `OSError`, and otherwise returns the directory listing
as is — even when that listing is empty. -/
theorem discovery_device_not_found :
    (∀ probe_values, get_video_source_names .linux .raised probe_values =
      .error ⟨"No devices available"⟩) ∧
    (∀ devices probe_values,
      get_video_source_names .linux (.ok devices) probe_values =
        .ok devices) ∧
    (∀ listdir, get_video_source_names .windows listdir (.ok []) =
      .error ⟨"No devices available"⟩) ∧
    (∀ listdir, get_video_source_names .windows listdir .raised =
      .error ⟨"No devices available"⟩) ∧
    (∀ listdir d ds,
      get_video_source_names .windows listdir (.ok (d :: ds)) =
        .ok (d :: ds)) :=
  ⟨fun _ => rfl, fun _ _ => rfl, fun _ => rfl, fun _ => rfl,
   fun _ _ _ => rfl⟩

/-- Claim C9 counterexample: the aggregated capability table also carries
the capability structure's media-type `name` column, so its columns are
not exactly the seven the claim lists. -/
theorem output_columns_counterexample :
    "name" ∈ source_capabilities_columns ∧
    "name" ∉ ["device_name", "width", "height", "fourcc",
              "framerate_num", "framerate_denom", "framerate"] ∧
    source_capabilities_columns ≠
      ["device_name", "width", "height", "fourcc",
       "framerate_num", "framerate_denom", "framerate"] := by
  refine ⟨by decide, by decide, by decide⟩

/-- Claim C9 amended: the aggregated capability table has exactly the
columns `device_name, width, height, name, fourcc, framerate_num,
framerate_denom, framerate` in that order, and in every row the
`framerate` column is the quotient `framerate_num / framerate_denom`. -/
theorem output_schema :
    source_capabilities_columns =
      ["device_name", "width", "height", "name", "fourcc",
       "framerate_num", "framerate_denom", "framerate"] ∧
    ∀ (probe : String → ProbeResult)
      (discovered : Except DeviceNotFound (List String))
      (video_source_names : Option (List String))
      (rows : List SourceCapRow),
      get_source_capabilities probe discovered video_source_names =
        .ok rows →
      ∀ srow ∈ rows, srow.framerate =
        (srow.framerate_num : Rat) / (srow.framerate_denom : Rat) := by
  constructor
  · rfl
  · intro probe discovered names rows h srow hs
    have hrows : ∃ ns : List String,
        rows = (ns.map (device_frame probe)).flatten := by
      cases names with
      | some ns =>
        refine ⟨ns, ?_⟩
        have heq : get_source_capabilities probe discovered (some ns) =
            .ok ((ns.map (device_frame probe)).flatten) := rfl
        rw [heq] at h
        injection h with h'
        exact h'.symm
      | none =>
        cases discovered with
        | error e =>
          exact Except.noConfusion h
        | ok ns =>
          refine ⟨ns, ?_⟩
          have heq : get_source_capabilities probe (.ok ns) none =
              .ok ((ns.map (device_frame probe)).flatten) := rfl
          rw [heq] at h
          injection h with h'
          exact h'.symm
    obtain ⟨ns, rfl⟩ := hrows
    rw [List.mem_flatten] at hs
    obtain ⟨l, hl, hsl⟩ := hs
    obtain ⟨d, -, rfl⟩ := List.mem_map.mp hl
    unfold device_frame at hsl
    by_cases hz : (get_allowed_capabilities probe d).length = 0
    · rw [if_pos hz] at hsl
      exact absurd hsl (List.not_mem_nil _)
    · rw [if_neg hz] at hsl
      obtain ⟨m, hm, rfl⟩ := List.mem_map.mp hsl
      exact expand_framerate_quotient _ m hm

/-- Witness for C9: a one-device probe with one scalar capability yields
one row, whose `framerate` column equals 30/1. -/
theorem output_schema_witness :
    get_source_capabilities
      (fun _ => ProbeResult.caps [⟨"YUY2", DimVal.scalar 640,
        DimVal.scalar 480, FramerateVal.frac ⟨30, 1⟩, "video/x-raw-yuv"⟩])
      (.ok []) (some ["cam0"]) =
      .ok [⟨"cam0", 640, 480, "video/x-raw-yuv", "YUY2", 30, 1,
            ((30 : Int) : Rat) / ((1 : Int) : Rat)⟩] ∧
    (⟨"cam0", 640, 480, "video/x-raw-yuv", "YUY2", 30, 1,
      ((30 : Int) : Rat) / ((1 : Int) : Rat)⟩ : SourceCapRow).framerate =
      (((⟨"cam0", 640, 480, "video/x-raw-yuv", "YUY2", 30, 1,
        ((30 : Int) : Rat) / ((1 : Int) : Rat)⟩ :
        SourceCapRow).framerate_num : Rat) /
       ((⟨"cam0", 640, 480, "video/x-raw-yuv", "YUY2", 30, 1,
        ((30 : Int) : Rat) / ((1 : Int) : Rat)⟩ :
        SourceCapRow).framerate_denom : Rat)) := by
  have heq : get_source_capabilities
      (fun _ => ProbeResult.caps [⟨"YUY2", DimVal.scalar 640,
        DimVal.scalar 480, FramerateVal.frac ⟨30, 1⟩, "video/x-raw-yuv"⟩])
      (.ok []) (some ["cam0"]) =
      .ok [⟨"cam0", 640, 480, "video/x-raw-yuv", "YUY2", 30, 1,
            ((30 : Int) : Rat) / ((1 : Int) : Rat)⟩] := rfl
  exact ⟨heq, output_schema.2 _ _ _ _ heq _ (List.mem_singleton.mpr rfl)⟩

/-- Claim C1 counterexample: with a draw queue configured, surface
acquisition succeeding and the draw queue's `render` raising, the
exception propagates out of `do_transform_ip` — the transform does not
return `Gst.FLOW_OK` for that frame. -/
theorem draw_failure_isolation_counterexample :
    CairoDrawBase.do_transform_ip
      (CairoDrawQueue.render_draw_queue true ⟨true, false⟩) =
      PyResult.exn ∧
    CairoDrawBase.do_transform_ip
      (CairoDrawQueue.render_draw_queue true ⟨true, false⟩) ≠
      .ok .flowOk := by
  constructor
  · rfl
  · intro h
    exact PyResult.noConfusion h

/-- Claim C1 amended: for `CairoDrawBase`'s default draw function, both a
surface-acquisition failure and a drawing-command failure are caught and
logged and the transform returns `Gst.FLOW_OK`, forwarding the buffer;
for `CairoDrawQueue.render_draw_queue`, a surface-acquisition failure is
caught the same way (and an unset draw queue draws nothing), but a
failure while issuing drawing commands (`draw_queue.render`) is not
caught — it propagates out of `do_transform_ip`, so the transform does
not return the success status that frame. -/
theorem draw_failure_isolation :
    (∀ env, CairoDrawBase.do_transform_ip (CairoDrawBase.draw_on env) =
      .ok .flowOk) ∧
    (∀ env : DrawEnv, env.surface_ok = false →
      CairoDrawBase.do_transform_ip
        (CairoDrawQueue.render_draw_queue true env) = .ok .flowOk) ∧
    (∀ env : DrawEnv, env.render_ok = true →
      CairoDrawBase.do_transform_ip
        (CairoDrawQueue.render_draw_queue true env) = .ok .flowOk) ∧
    (∀ env, CairoDrawBase.do_transform_ip
      (CairoDrawQueue.render_draw_queue false env) = .ok .flowOk) ∧
    (∀ env : DrawEnv, env.surface_ok = true → env.render_ok = false →
      CairoDrawBase.do_transform_ip
        (CairoDrawQueue.render_draw_queue true env) = PyResult.exn) := by
  refine ⟨?_, ?_, ?_, ?_, ?_⟩
  · intro env
    obtain ⟨s, r⟩ := env
    cases s <;> cases r <;> rfl
  · intro env h
    obtain ⟨s, r⟩ := env
    dsimp only at h
    subst h
    rfl
  · intro env h
    obtain ⟨s, r⟩ := env
    dsimp only at h
    subst h
    cases s <;> rfl
  · intro env
    rfl
  · intro env hs hr
    obtain ⟨s, r⟩ := env
    dsimp only at hs hr
    subst hs
    subst hr
    rfl

/-- Witness for C1 (amended): evaluating the transform on each concrete
failure scenario. -/
theorem draw_failure_isolation_witness :
    CairoDrawBase.do_transform_ip (CairoDrawBase.draw_on ⟨true, false⟩) =
      .ok .flowOk ∧
    CairoDrawBase.do_transform_ip
      (CairoDrawQueue.render_draw_queue true ⟨false, true⟩) =
      .ok .flowOk ∧
    CairoDrawBase.do_transform_ip
      (CairoDrawQueue.render_draw_queue true ⟨true, true⟩) =
      .ok .flowOk ∧
    CairoDrawBase.do_transform_ip
      (CairoDrawQueue.render_draw_queue false ⟨true, false⟩) =
      .ok .flowOk ∧
    CairoDrawBase.do_transform_ip
      (CairoDrawQueue.render_draw_queue true ⟨true, false⟩) =
      PyResult.exn :=
  ⟨draw_failure_isolation.1 ⟨true, false⟩,
   draw_failure_isolation.2.1 ⟨false, true⟩ rfl,
   draw_failure_isolation.2.2.1 ⟨true, true⟩ rfl,
   draw_failure_isolation.2.2.2.1 ⟨true, false⟩,
   draw_failure_isolation.2.2.2.2 ⟨true, false⟩ rfl rfl⟩

/-- Claim C5: with only a video source (no bitrate, no output path, no
draw queue, scale and warp off, no frame-grab callback), the pipeline is
exactly source → videorate → tee → display queue → video sink, with no
scale, warp, draw, grab, or capture elements and no properties set. -/
theorem minimal_display_pipeline :
    ∀ plat, get_pipeline plat none none false false false false =
      { elements := [("video_source", "video_source"),
                     ("videorate", "video_rate"), ("tee", "video_tee"),
                     ("queue", "display_queue"),
                     ("autovideosink", "video_sink")],
        links := [("video_source", "video_rate"),
                  ("video_rate", "video_tee"),
                  ("video_tee", "display_queue"),
                  ("display_queue", "video_sink")],
        props := [] } := by
  intro plat
  rfl

/-- Claim C8: for every combination of the four optional display features
and any capture arguments, the links of the assembled pipeline are the
backbone links, then exactly the consecutive links of the display chain
tee → queue → [grab] → [scale] → [warp] → [draw] → sink (absent stages
leaving the chain unchanged), then the capture links when the capture
branch is built. -/
theorem display_chain_linear :
    ∀ (plat : Platform) (bitrate : Option Int) (output_path : Option String)
      (on_frame_grabbed with_scale with_warp draw_queue : Bool),
      (get_pipeline plat bitrate output_path draw_queue with_scale
        with_warp on_frame_grabbed).links =
        backboneLinks ++
          chainPairs (displayChain on_frame_grabbed with_scale with_warp
            draw_queue) ++
          (if truthyInt bitrate && truthyStr output_path then captureLinks
           else []) :=
  fun plat bitrate output_path g sc wp dq =>
    (get_pipeline_characterization plat bitrate output_path dq sc wp g).2.1

/-- Claim C4 counterexample: bitrate 0 and a nonempty output path are both
supplied, yet no capture branch is constructed — the condition tests
truthiness, not presence. -/
theorem capture_branch_counterexample :
    (some (0 : Int)).isSome = true ∧
    (some "out.avi").isSome = true ∧
    (get_pipeline .linux (some 0) (some "out.avi")
        false false false false).elements =
      [("video_source", "video_source"), ("videorate", "video_rate"),
       ("tee", "video_tee"), ("queue", "display_queue"),
       ("autovideosink", "video_sink")] ∧
    ("queue", "capture_queue") ∉
      (get_pipeline .linux (some 0) (some "out.avi")
        false false false false).elements := by
  refine ⟨rfl, rfl, rfl, by decide⟩

/-- Claim C4 amended: the capture branch is constructed if and only if the
bitrate is supplied and nonzero and the output path is supplied and
nonempty; when present it is exactly queue → colorspace-convert →
platform-appropriate encoder (bitrate property set) → AVI muxer → file
sink (location property set), linked in that order from the tee,
independent of the display branch's optional stages. -/
theorem capture_branch_structure :
    ∀ (plat : Platform) (bitrate : Option Int) (output_path : Option String)
      (on_frame_grabbed with_scale with_warp draw_queue : Bool),
      (get_pipeline plat bitrate output_path draw_queue with_scale
        with_warp on_frame_grabbed).elements =
        expectedElements plat on_frame_grabbed with_scale with_warp
          draw_queue (truthyInt bitrate && truthyStr output_path) ∧
      (get_pipeline plat bitrate output_path draw_queue with_scale
        with_warp on_frame_grabbed).links =
        backboneLinks ++
          chainPairs (displayChain on_frame_grabbed with_scale with_warp
            draw_queue) ++
          (if truthyInt bitrate && truthyStr output_path then captureLinks
           else []) ∧
      (get_pipeline plat bitrate output_path draw_queue with_scale
        with_warp on_frame_grabbed).props =
        expectedProps bitrate output_path draw_queue
          (truthyInt bitrate && truthyStr output_path) :=
  fun plat bitrate output_path g sc wp dq =>
    get_pipeline_characterization plat bitrate output_path dq sc wp g

/-- The display-only element list never contains the capture queue. -/
theorem capture_queue_not_mem (plat : Platform)
    (g sc wp dq : Bool) :
    ("queue", "capture_queue") ∉ expectedElements plat g sc wp dq false := by
  cases g <;> cases sc <;> cases wp <;> cases dq <;>
    simp [expectedElements, captureElements]

/-- Claim C10: with bitrate 0 (whatever the output path), or with an empty
output path (whatever the bitrate), no capture branch is constructed even
though both arguments were supplied. -/
theorem falsy_capture_arguments :
    (∀ (plat : Platform) (s : String) (g sc wp dq : Bool),
      (get_pipeline plat (some 0) (some s) dq sc wp g).elements =
        expectedElements plat g sc wp dq false ∧
      ("queue", "capture_queue") ∉
        (get_pipeline plat (some 0) (some s) dq sc wp g).elements) ∧
    (∀ (plat : Platform) (b : Int) (g sc wp dq : Bool),
      (get_pipeline plat (some b) (some "") dq sc wp g).elements =
        expectedElements plat g sc wp dq false ∧
      ("queue", "capture_queue") ∉
        (get_pipeline plat (some b) (some "") dq sc wp g).elements) := by
  constructor
  · intro plat s g sc wp dq
    have h0 : truthyInt (some 0) = false := by decide
    have hc : (truthyInt (some 0) && truthyStr (some s)) = false := by
      rw [h0]
      exact Bool.false_and _
    have he := (get_pipeline_characterization plat (some 0) (some s)
      dq sc wp g).1
    rw [hc] at he
    exact ⟨he, he ▸ capture_queue_not_mem plat g sc wp dq⟩
  · intro plat b g sc wp dq
    have h0 : truthyStr (some "") = false := by decide
    have hc : (truthyInt (some b) && truthyStr (some "")) = false := by
      rw [h0]
      exact Bool.and_false _
    have he := (get_pipeline_characterization plat (some b) (some "")
      dq sc wp g).1
    rw [hc] at he
    exact ⟨he, he ▸ capture_queue_not_mem plat g sc wp dq⟩

/-- Witness for C7 (amended): discovery outcomes at concrete inputs. -/
theorem discovery_device_not_found_witness :
    get_video_source_names .linux .raised (.ok []) =
      .error ⟨"No devices available"⟩ ∧
    get_video_source_names .linux (.ok ["cam0"]) (.ok []) = .ok ["cam0"] ∧
    get_video_source_names .windows (.ok []) (.ok []) =
      .error ⟨"No devices available"⟩ ∧
    get_video_source_names .windows (.ok []) .raised =
      .error ⟨"No devices available"⟩ ∧
    get_video_source_names .windows (.ok []) (.ok ["cam0"]) =
      .ok ["cam0"] :=
  ⟨discovery_device_not_found.1 (.ok []),
   discovery_device_not_found.2.1 ["cam0"] (.ok []),
   discovery_device_not_found.2.2.1 (.ok []),
   discovery_device_not_found.2.2.2.1 (.ok []),
   discovery_device_not_found.2.2.2.2 (.ok []) "cam0" []⟩

/-- Witness for C5: the minimal pipeline on the Linux platform branch. -/
theorem minimal_display_pipeline_witness :
    get_pipeline .linux none none false false false false =
      { elements := [("video_source", "video_source"),
                     ("videorate", "video_rate"), ("tee", "video_tee"),
                     ("queue", "display_queue"),
                     ("autovideosink", "video_sink")],
        links := [("video_source", "video_rate"),
                  ("video_rate", "video_tee"),
                  ("video_tee", "display_queue"),
                  ("display_queue", "video_sink")],
        props := [] } :=
  minimal_display_pipeline .linux

/-- Witness for C8: the display chain with grab and warp requested and
scale and draw absent. -/
theorem display_chain_linear_witness :
    (get_pipeline .linux none none false false true true).links =
      backboneLinks ++ chainPairs (displayChain true false true false) ++
        [] :=
  display_chain_linear .linux none none true false true false

/-- Witness for C4 (amended): a pipeline with bitrate 1200 and output
path "out.avi" carries the full capture branch and its properties. -/
theorem capture_branch_structure_witness :
    (get_pipeline .linux (some 1200) (some "out.avi")
        false false false false).elements =
      expectedElements .linux false false false false true ∧
    (get_pipeline .linux (some 1200) (some "out.avi")
        false false false false).links =
      backboneLinks ++ chainPairs (displayChain false false false false) ++
        captureLinks ∧
    (get_pipeline .linux (some 1200) (some "out.avi")
        false false false false).props =
      expectedProps (some 1200) (some "out.avi") false true :=
  capture_branch_structure .linux (some 1200) (some "out.avi")
    false false false false

/-- Witness for C10: falsy capture arguments at concrete inputs. -/
theorem falsy_capture_arguments_witness :
    ((get_pipeline .linux (some 0) (some "out.avi")
        false false false true).elements =
      expectedElements .linux true false false false false ∧
      ("queue", "capture_queue") ∉
        (get_pipeline .linux (some 0) (some "out.avi")
          false false false true).elements) ∧
    ((get_pipeline .linux (some 1200) (some "")
        false true false false).elements =
      expectedElements .linux false true false false false ∧
      ("queue", "capture_queue") ∉
        (get_pipeline .linux (some 1200) (some "")
          false true false false).elements) :=
  ⟨falsy_capture_arguments.1 .linux "out.avi" true false false false,
   falsy_capture_arguments.2 .linux 1200 false true false false⟩

end PygstUtils
